import Mathlib

/-!
Verification development for the unsplash-stats repository.

Shallow embedding of the collection pipeline:
- the rate-aware API client (`src/unsplash_stats/api.py`),
- the snapshot builder (`src/unsplash_stats/collector.py`),
- the persistence layer (`src/homeassistant-addon/.../unsplash_stats/db.py`),
- the export view (`src/homeassistant-addon/.../unsplash_stats/exporters.py`),
- the dashboard collection trigger (`src/unsplash_stats/dashboard.py`).

Python floats are modelled as rationals (`ℚ`), Python ints as `ℤ`/`ℕ`,
nullable values as `Option`, and fallible code as `Except`/`Option`.
-/

namespace UnsplashStats

/-! ## String helpers

Python's `str.lower()` and the `in` substring test, used by
`_is_rate_limited` in `src/unsplash_stats/api.py`. -/

/-- Python `str.lower()` modelled via per-character lowering. -/
def lowerStr (s : String) : String :=
  String.mk (s.toList.map Char.toLower)

/-- Does the second list occur as a leading segment of the first argument list? -/
def leadsWith : List Char → List Char → Bool
  | [], _ => true
  | _ :: _, [] => false
  | a :: as, b :: bs => a == b && leadsWith as bs

/-- Does `pat` occur contiguously inside `l`? -/
def containsChars (pat : List Char) : List Char → Bool
  | [] => leadsWith pat []
  | c :: rest => leadsWith pat (c :: rest) || containsChars pat rest

/-- Python `pat in s` substring test. -/
def containsSub (s pat : String) : Bool :=
  containsChars pat.toList s.toList

/-- The phrase test of `_is_rate_limited` (api.py lines 201-209): the lowered
text contains "rate limit" or "too many requests". -/
def mentionsRateLimit (text : String) : Bool :=
  containsSub (lowerStr text) "rate limit" || containsSub (lowerStr text) "too many requests"

/-! ## Client state (api.py `UnsplashClient.__init__`, lines 28-54) -/

/-- The client fields relevant to rate limiting, from `UnsplashClient.__init__`
(api.py lines 48-54). -/
structure ClientState where
  rateLimit : Option ℤ
  rateLimitRemaining : Option ℤ
  minRequestIntervalSeconds : ℚ
  rateLimitRetryMaxSleepSeconds : ℚ
deriving DecidableEq, Repr

/-- Python default `rate_limit_retry_max_sleep_seconds=1800.0` in
`UnsplashClient.__init__` (api.py line 35). -/
def defaultRetryMaxSleep : ℚ := 1800

/-- `UnsplashClient.__init__` (api.py lines 48-53): rate-limit fields start as
`None`, the minimum interval is clamped at 0 from below, and the retry sleep
ceiling is clamped at 5 from below. -/
def initClientState (minRequestInterval retryMaxSleep : ℚ) : ClientState :=
  { rateLimit := none
    rateLimitRemaining := none
    minRequestIntervalSeconds := max 0 minRequestInterval
    rateLimitRetryMaxSleepSeconds := max 5 retryMaxSleep }

/-! ## Response headers

Header values are modelled after lexical analysis: an outer `Option` is
header presence, the payload is the parse class of the header string. -/

/-- Parse classes of a `Retry-After` header string, as consumed by
`_parse_retry_after_seconds` (api.py lines 238-262): empty after strip,
parseable as a Python float, parseable as an HTTP date (whose instant is the
given epoch in seconds, after the naive-datetime/UTC normalization of lines
254-255), or neither. -/
inductive RetryAfterValue where
  | blank : RetryAfterValue
  | numeric (seconds : ℚ) : RetryAfterValue
  | httpDate (epochSeconds : ℚ) : RetryAfterValue
  | malformed : RetryAfterValue
deriving DecidableEq, Repr

/-- Parse classes of an `X-Ratelimit-Reset` header string (api.py lines
221-232): parseable as a float, or not. -/
inductive ResetValue where
  | numeric (epochSeconds : ℚ) : ResetValue
  | malformed : ResetValue
deriving DecidableEq, Repr

/-- The response headers the client reads. For the two quota headers the
outer `Option` is presence and the inner `Option` is whether `int(...)`
succeeds (`_update_rate_limit`, api.py lines 264-279). An absent-headers
object (`not headers`) is modelled by all fields `none`, which leaves the
state unchanged exactly as the early return does. -/
structure Headers where
  retryAfter : Option RetryAfterValue
  rateLimitReset : Option ResetValue
  limitHeader : Option (Option ℤ)
  remainingHeader : Option (Option ℤ)
deriving DecidableEq, Repr

/-- `_update_rate_limit` (api.py lines 264-279): each present header sets its
field to the `int(...)` parse result (`None` when unparseable); an absent
header leaves the field unchanged. -/
def updateRateLimitHeaders (st : ClientState) (h : Headers) : ClientState :=
  let st1 := match h.limitHeader with
    | none => st
    | some v => { st with rateLimit := v }
  match h.remainingHeader with
    | none => st1
    | some v => { st1 with rateLimitRemaining := v }

/-! ## Rate-limit detection and wait computation -/

/-- The structured error payload of an error response as read by
`_is_rate_limited` and `_request` (api.py lines 144-153, 205-209): an optional
`errors` list whose entries are taken through `str(...)`. A falsy payload
(absent or empty dict) is modelled by `none` at the use sites. -/
structure ErrorPayload where
  errors : Option (List String)
deriving DecidableEq, Repr

/-- `_is_rate_limited` (api.py lines 192-211), evaluated against the stored
(already header-updated) remaining quota. -/
def isRateLimited (st : ClientState) (statusCode : ℤ) (message : String)
    (payload : Option ErrorPayload) : Bool :=
  if statusCode ≠ 403 ∧ statusCode ≠ 429 then false
  else if st.rateLimitRemaining = some 0 then true
  else if mentionsRateLimit message then true
  else match payload with
    | none => false
    | some p => match p.errors with
      | none => false
      | some es => es.any mentionsRateLimit

/-- `_parse_retry_after_seconds` (api.py lines 238-262). A numeric value is
returned when strictly positive (a non-positive numeric string then falls to
the date parse, which fails on a numeric string, giving `None`); an HTTP date
yields the exact seconds until that date when strictly positive; everything
else yields `None`. `now` is the current epoch in seconds. -/
def parseRetryAfterSeconds (now : ℚ) : Option RetryAfterValue → Option ℚ
  | none => none
  | some .blank => none
  | some (.numeric s) => if 0 < s then some s else none
  | some (.httpDate epoch) =>
      if 0 < epoch - now then some (epoch - now) else none
  | some .malformed => none

/-- `_compute_rate_limit_wait_seconds` (api.py lines 213-236): Retry-After
first, then a future reset epoch giving `reset - now + 1`, then exponential
backoff `max(min_interval, 5) * 2 ^ min(hits, 8)`; every branch is capped at
the retry sleep ceiling. -/
def computeRateLimitWaitSeconds (st : ClientState) (h : Headers) (now : ℚ)
    (rateLimitHits : ℕ) : ℚ :=
  match parseRetryAfterSeconds now h.retryAfter with
  | some s => min s st.rateLimitRetryMaxSleepSeconds
  | none =>
    let backoff :=
      min (max st.minRequestIntervalSeconds 5 * 2 ^ min rateLimitHits 8)
        st.rateLimitRetryMaxSleepSeconds
    match h.rateLimitReset with
    | some (.numeric resetEpoch) =>
        if now < resetEpoch then
          min (resetEpoch - now + 1) st.rateLimitRetryMaxSleepSeconds
        else backoff
    | _ => backoff

/-- The decision the HTTP-error branch of `_request` takes (api.py lines
137-170): sleep and retry, or raise `UnsplashAPIError(status, message,
payload)`. -/
inductive RequestAction where
  | retrySleep (waitSeconds : ℚ) : RequestAction
  | raiseApiError (statusCode : ℤ) (message : String)
      (payload : Option ErrorPayload) : RequestAction
deriving DecidableEq, Repr

/-- The HTTP-error branch of `_request` (api.py lines 137-170): first
`_update_rate_limit(exc.headers)`, then `_is_rate_limited`; if rate limited,
sleep `_compute_rate_limit_wait_seconds` and retry, otherwise raise. -/
def handleHTTPError (st : ClientState) (h : Headers) (now : ℚ)
    (rateLimitHits : ℕ) (statusCode : ℤ) (message : String)
    (payload : Option ErrorPayload) : RequestAction :=
  let st1 := updateRateLimitHeaders st h
  if isRateLimited st1 statusCode message payload then
    .retrySleep (computeRateLimitWaitSeconds st1 h now rateLimitHits)
  else
    .raiseApiError statusCode message payload

/-- The structured error entries of a payload: the `errors` list when it is
present, nothing otherwise. -/
def payloadEntries : Option ErrorPayload → List String
  | some ⟨some es⟩ => es
  | _ => []

/-- The spec-side rate-limit condition, written from the spec's words: status
is 403 or 429 and (observed remaining quota is exactly 0, or the error message
or some structured error entry contains "rate limit" or "too many requests"
case-insensitively). The observed remaining quota is the one recorded from
this response's headers. -/
def specRateLimitCond (st : ClientState) (h : Headers) (statusCode : ℤ)
    (message : String) (payload : Option ErrorPayload) : Prop :=
  (statusCode = 403 ∨ statusCode = 429) ∧
    ((updateRateLimitHeaders st h).rateLimitRemaining = some 0 ∨
      mentionsRateLimit message = true ∨
      (∃ e ∈ payloadEntries payload, mentionsRateLimit e = true))

instance (st : ClientState) (h : Headers) (statusCode : ℤ) (message : String)
    (payload : Option ErrorPayload) :
    Decidable (specRateLimitCond st h statusCode message payload) :=
  inferInstanceAs (Decidable (_ ∧ _))

/-! ## Photo pagination (`iter_user_photos`, api.py lines 86-118)

Photos are abstract tokens (`ℕ`). A page response is `none` for a non-list
JSON body and `some l` for a list. The model walks a given list of page
responses (the response for page 1, page 2, ...); `modelExhausted` is true
only when the code would have requested a page beyond the supplied list,
marking the boundary of the model rather than a behaviour of the code. -/

/-- The clamp `per_page = max(1, min(per_page, 30))` (api.py line 94). -/
def clampPerPage (requested : ℤ) : ℤ :=
  max 1 (min requested 30)

/-- Outcome of one generator run: the photos yielded, the page requests
issued as `(page, per_page)` pairs, and the model-exhaustion marker. -/
structure IterOutcome where
  photos : List ℕ
  pageRequests : List (ℕ × ℤ)
  modelExhausted : Bool
deriving DecidableEq, Repr

/-- The `page > max_pages` check (api.py lines 99-100). -/
def pageLimitReached (maxPages : Option ℕ) (page : ℕ) : Bool :=
  match maxPages with
  | none => false
  | some m => m < page

/-- The inner `for photo in photos` loop (api.py lines 109-113): yield the
photo, bump `emitted`, and return from the generator as soon as
`emitted >= max_items`. Returns the photos yielded from this page, the new
`emitted` counter, and whether the generator returned early. -/
def emitFromPage : List ℕ → ℕ → Option ℕ → List ℕ × ℕ × Bool
  | [], emitted, _ => ([], emitted, false)
  | x :: xs, emitted, maxItems =>
    match maxItems with
    | some k =>
        if k ≤ emitted + 1 then ([x], emitted + 1, true)
        else
          let r := emitFromPage xs (emitted + 1) (some k)
          (x :: r.1, r.2.1, r.2.2)
    | none =>
        let r := emitFromPage xs (emitted + 1) none
        (x :: r.1, r.2.1, r.2.2)

/-- The `while True` page loop of `iter_user_photos` (api.py lines 98-118),
walking the supplied responses from the given page number. Each iteration
first checks the page limit, then fetches the page (recorded as a request),
breaks on a non-list or empty response, yields the page's items honouring
`max_items`, and breaks on a short page. -/
def iterPagesGo : List (Option (List ℕ)) → ℕ → ℕ → ℤ → Option ℕ → Option ℕ →
    IterOutcome
  | [], page, _, _, maxPages, _ =>
    if pageLimitReached maxPages page then ⟨[], [], false⟩ else ⟨[], [], true⟩
  | resp :: rest, page, emitted, perPage, maxPages, maxItems =>
    if pageLimitReached maxPages page then ⟨[], [], false⟩
    else match resp with
    | none => ⟨[], [(page, perPage)], false⟩
    | some photos =>
      if photos.isEmpty then ⟨[], [(page, perPage)], false⟩
      else
        let e := emitFromPage photos emitted maxItems
        if e.2.2 then ⟨e.1, [(page, perPage)], false⟩
        else if (photos.length : ℤ) < perPage then ⟨e.1, [(page, perPage)], false⟩
        else
          let r := iterPagesGo rest (page + 1) e.2.1 perPage maxPages maxItems
          ⟨e.1 ++ r.photos, (page, perPage) :: r.pageRequests, r.modelExhausted⟩

/-- `iter_user_photos(username, per_page, max_pages, max_items)` (api.py
lines 86-118): clamp the page size, then page from page 1. -/
def iterUserPhotos (responses : List (Option (List ℕ))) (perPageRequested : ℤ)
    (maxPages maxItems : Option ℕ) : IterOutcome :=
  iterPagesGo responses 1 0 (clampPerPage perPageRequested) maxPages maxItems

/-! ## Snapshot builder (`src/unsplash_stats/collector.py`) -/

/-- `_request_interval_for_hourly_budget` (collector.py lines 50-60). -/
def requestIntervalForHourlyBudget (requestsPerHour : Option ℤ)
    (fraction : ℚ) : Option ℚ :=
  match requestsPerHour with
  | none => none
  | some n =>
    if n ≤ 0 then none
    else if fraction ≤ 0 then none
    else
      let targetRequestsPerHour := (n : ℚ) * fraction
      if targetRequestsPerHour ≤ 0 then none
      else some (3600 / targetRequestsPerHour)

/-- The auto-throttle adjustment of `collect_snapshot` (collector.py lines
142-154) combined with `set_min_request_interval` (api.py lines 56-57): when
an auto interval is derived, the client's floor becomes
`max(0, max(current_floor, auto))`; otherwise it is left unchanged. -/
def applyAutoThrottle (currentFloor : ℚ) (observedHourlyLimit : Option ℤ)
    (fraction : ℚ) : ℚ :=
  match requestIntervalForHourlyBudget observedHourlyLimit fraction with
  | none => currentFloor
  | some autoInterval => max 0 (max currentFloor autoInterval)

/-- One metric sub-object (`downloads` / `views` / `likes`) as read through
`_as_dict`/`_as_int` (collector.py lines 186-205): `.total` and
`.historical.change`, each `none` when missing or non-integer. A missing or
malformed sub-object is the all-`none` block, exactly what `_as_dict` of a
non-dict yields. -/
structure MetricBlock where
  total : Option ℤ
  histChange : Option ℤ
deriving DecidableEq, Repr

/-- A statistics object's three metric sub-objects. -/
structure StatsTriple where
  downloads : MetricBlock
  views : MetricBlock
  likes : MetricBlock
deriving DecidableEq, Repr

/-- A photo object as read by the collector loop (collector.py lines
162-212). `id` is the `str(...)`-coerced identifier. `statistics` is `none`
when the statistics value is missing, not a dict, or an empty dict — the
cases in which Python's `not stats` is true after `_as_dict`. -/
structure Photo where
  id : String
  slug : Option String
  description : Option String
  altDescription : Option String
  createdAt : Option String
  likes : Option ℤ
  statistics : Option StatsTriple
deriving DecidableEq, Repr

/-- Python's `a or b` over two optional strings (collector.py lines 194-195):
`a` when it is a non-empty string, else `b`. -/
def pyOrStr (a b : Option String) : Option String :=
  match a with
  | none => b
  | some s => if s = "" then b else some s

/-- One assembled photo row (the dict built at collector.py lines 190-212).
The opaque `raw_json` payload is not modelled: no claim reads it. -/
structure PhotoRow where
  photoId : String
  photoSlug : Option String
  photoDescription : Option String
  photoCreatedAt : Option String
  photoLikes : Option ℤ
  downloadsTotal : Option ℤ
  viewsTotal : Option ℤ
  likesTotal : Option ℤ
  downloadsChange30d : Option ℤ
  viewsChange30d : Option ℤ
  likesChange30d : Option ℤ
deriving DecidableEq, Repr

/-- The statistics triple the loop works with: `_as_dict(photo.get(...))`,
an all-`none` triple when statistics are missing. -/
def statsOf (p : Photo) : StatsTriple :=
  match p.statistics with
  | some s => s
  | none => ⟨⟨none, none⟩, ⟨none, none⟩, ⟨none, none⟩⟩

/-- The row the loop appends for a photo (collector.py lines 190-212); it is
appended whether or not the statistics were present. -/
def buildPhotoRow (p : Photo) : PhotoRow :=
  let s := statsOf p
  { photoId := p.id
    photoSlug := p.slug
    photoDescription := pyOrStr p.description p.altDescription
    photoCreatedAt := p.createdAt
    photoLikes := p.likes
    downloadsTotal := s.downloads.total
    viewsTotal := s.views.total
    likesTotal := s.likes.total
    downloadsChange30d := s.downloads.histChange
    viewsChange30d := s.views.histChange
    likesChange30d := s.likes.histChange }

/-- The strict-mode error message (collector.py lines 178-181). -/
def missingStatsMessage (photoId username : String) : String :=
  "Missing statistics for photo " ++ photoId ++ " in /users/" ++ username ++
    "/photos (expected when requesting stats=true)."

/-- The photo loop of `collect_snapshot` (collector.py lines 162-212):
counts photos seen, counts photos with missing statistics as errors, raises
in strict mode on a missing-statistics photo, and appends a row for every
photo it does not raise on. Returns `(photos_seen, photo_errors, rows)`. -/
def collectPhotoRows (strict : Bool) (username : String) :
    List Photo → ℕ → ℕ → List PhotoRow →
    Except String (ℕ × ℕ × List PhotoRow)
  | [], seen, errs, rows => .ok (seen, errs, rows)
  | p :: rest, seen, errs, rows =>
    if p.statistics.isNone then
      if strict then .error (missingStatsMessage p.id username)
      else collectPhotoRows strict username rest (seen + 1) (errs + 1)
        (rows ++ [buildPhotoRow p])
    else collectPhotoRows strict username rest (seen + 1) errs
      (rows ++ [buildPhotoRow p])

/-! ## Persistence layer
(`src/homeassistant-addon/unsplash_stats_dashboard/unsplash_stats/db.py`) -/

/-- A `collection_runs` row (db.py lines 20-24). -/
structure RunRow where
  id : ℕ
  username : String
  collectedAt : String
deriving DecidableEq, Repr

/-- A `user_stats_snapshots` row (db.py lines 26-41); `raw_json` is opaque
and unmodelled. -/
structure UserSnapshotRow where
  runId : ℕ
  username : String
  totalPhotos : Option ℤ
  totalLikes : Option ℤ
  downloadsTotal : Option ℤ
  viewsTotal : Option ℤ
  likesTotal : Option ℤ
  downloadsChange30d : Option ℤ
  viewsChange30d : Option ℤ
  likesChange30d : Option ℤ
deriving DecidableEq, Repr

/-- A `photo_stats_snapshots` row (db.py lines 43-60) with its
autoincrement `id`; `raw_json` is opaque and unmodelled. -/
structure PhotoSnapshotRow where
  id : ℕ
  runId : ℕ
  row : PhotoRow
deriving DecidableEq, Repr

/-- The SQLite store: the three tables plus the autoincrement counters. -/
structure DB where
  nextRunId : ℕ
  nextPhotoRowId : ℕ
  runs : List RunRow
  userSnapshots : List UserSnapshotRow
  photoSnapshots : List PhotoSnapshotRow
deriving DecidableEq, Repr

/-- The freshly initialized store (`init_db`, db.py lines 17-71). SQLite
AUTOINCREMENT starts at 1. -/
def emptyDB : DB :=
  ⟨1, 1, [], [], []⟩

/-- `insert_collection_run` (db.py lines 74-84): insert the header and
return `lastrowid`. The insert itself cannot violate a constraint. -/
def insertCollectionRun (db : DB) (username collectedAt : String) : DB × ℕ :=
  ({ db with
      nextRunId := db.nextRunId + 1
      runs := db.runs ++ [⟨db.nextRunId, username, collectedAt⟩] },
    db.nextRunId)

/-- `insert_user_snapshot` (db.py lines 87-132) under the schema's
constraints: the `UNIQUE(run_id, username)` index and the
`run_id REFERENCES collection_runs(id)` foreign key (enforced because
`connect_db` sets `PRAGMA foreign_keys = ON`). -/
def insertUserSnapshot (db : DB) (r : UserSnapshotRow) : Except String DB :=
  if db.userSnapshots.any fun u => u.runId = r.runId ∧ u.username = r.username
  then .error "UNIQUE constraint failed: user_stats_snapshots.run_id, user_stats_snapshots.username"
  else if db.runs.any (fun run => run.id = r.runId) then
    .ok { db with userSnapshots := db.userSnapshots ++ [r] }
  else .error "FOREIGN KEY constraint failed"

/-- One row insert of the `executemany` in `insert_photo_snapshot_rows`
(db.py lines 135-175), under `UNIQUE(run_id, photo_id)` and the run foreign
key. -/
def insertPhotoSnapshotRow (db : DB) (runId : ℕ) (r : PhotoRow) :
    Except String DB :=
  if db.photoSnapshots.any fun p => p.runId = runId ∧ p.row.photoId = r.photoId
  then .error "UNIQUE constraint failed: photo_stats_snapshots.run_id, photo_stats_snapshots.photo_id"
  else if db.runs.any (fun run => run.id = runId) then
    .ok { db with
      nextPhotoRowId := db.nextPhotoRowId + 1
      photoSnapshots := db.photoSnapshots ++ [⟨db.nextPhotoRowId, runId, r⟩] }
  else .error "FOREIGN KEY constraint failed"

/-- `insert_photo_snapshot_rows` (db.py lines 135-175): row-by-row inserts
of the batch, failing at the first constraint violation. -/
def insertPhotoSnapshotRows (db : DB) (runId : ℕ) :
    List PhotoRow → Except String DB
  | [] => .ok db
  | r :: rest =>
    match insertPhotoSnapshotRow db runId r with
    | .error e => .error e
    | .ok db1 => insertPhotoSnapshotRows db1 runId rest

/-- The user snapshot row assembled by `collect_snapshot` (collector.py
lines 214-242) from the user object and user statistics. -/
def buildUserSnapshotRow (runId : ℕ) (username : String)
    (totalPhotos totalLikes : Option ℤ) (userStats : StatsTriple) :
    UserSnapshotRow :=
  { runId := runId
    username := username
    totalPhotos := totalPhotos
    totalLikes := totalLikes
    downloadsTotal := userStats.downloads.total
    viewsTotal := userStats.views.total
    likesTotal := userStats.likes.total
    downloadsChange30d := userStats.downloads.histChange
    viewsChange30d := userStats.views.histChange
    likesChange30d := userStats.likes.histChange }

/-- The transaction body of `collect_snapshot` (collector.py lines 223-246):
insert the run header, then the user snapshot, then every photo row, in that
order. -/
def runInsertsBody (db : DB) (username collectedAt : String)
    (totalPhotos totalLikes : Option ℤ) (userStats : StatsTriple)
    (photoRows : List PhotoRow) : Except String (DB × ℕ) :=
  match insertUserSnapshot (insertCollectionRun db username collectedAt).1
      (buildUserSnapshotRow (insertCollectionRun db username collectedAt).2
        username totalPhotos totalLikes userStats) with
  | .error e => .error e
  | .ok db2 =>
    match insertPhotoSnapshotRows db2
        (insertCollectionRun db username collectedAt).2 photoRows with
    | .error e => .error e
    | .ok db3 => .ok (db3, (insertCollectionRun db username collectedAt).2)

/-- The `with connection:` block around the inserts (collector.py lines
223-246) with sqlite3's context-manager semantics: commit the body's result
on success, roll back to the pre-transaction state on any exception (the
exception still propagates, modelled by the `none` run id). The first
component is the state visible to readers afterwards. -/
def persistRun (db : DB) (username collectedAt : String)
    (totalPhotos totalLikes : Option ℤ) (userStats : StatsTriple)
    (photoRows : List PhotoRow) : DB × Option ℕ :=
  match runInsertsBody db username collectedAt totalPhotos totalLikes
      userStats photoRows with
  | .ok (db', runId) => (db', some runId)
  | .error _ => (db, none)

/-- Summary of one collection (the `CollectionResult` fields the claims
read; collector.py lines 21-32, 250-265). -/
structure RunSummary where
  runId : ℕ
  photosSeen : ℕ
  photosSaved : ℕ
  photoErrors : ℕ
deriving DecidableEq, Repr

/-- `collect_snapshot` from the photo loop onward (collector.py lines
158-265), for already-fetched inputs: run the photo loop (a strict-mode
raise aborts before the store is touched), then persist the run in one
transaction. Returns the visible store and either the raised error or the
result summary. -/
def collectSnapshotModel (db : DB) (strict : Bool)
    (username collectedAt : String) (totalPhotos totalLikes : Option ℤ)
    (userStats : StatsTriple) (photos : List Photo) :
    DB × Except String RunSummary :=
  match collectPhotoRows strict username photos 0 0 [] with
  | .error e => (db, .error e)
  | .ok (seen, errs, rows) =>
    match persistRun db username collectedAt totalPhotos totalLikes
        userStats rows with
    | (db', some runId) =>
      (db', .ok ⟨runId, seen, rows.length, errs⟩)
    | (_, none) => (db, .error "persistence failure")

/-! ## Export view (`PHOTO_LATEST_QUERY`, exporters.py lines 40-82)

SQLite compares the TEXT `collected_at` values bytewise; for the ASCII
ISO-8601 timestamps stored by the collector this is the character-wise
lexicographic order modelled here. -/

/-- Bytewise-style lexicographic order on character lists. -/
def charsLt : List Char → List Char → Bool
  | [], [] => false
  | [], _ :: _ => true
  | _ :: _, [] => false
  | a :: as, b :: bs => a < b || (a == b && charsLt as bs)

/-- SQLite TEXT comparison of two stored strings. -/
def strLtB (a b : String) : Bool :=
  charsLt a.toList b.toList

/-- One row of the `ranked` CTE before ranking: a photo snapshot joined to
its run's `collected_at` (exporters.py lines 41-57). -/
structure JoinedRow where
  id : ℕ
  photoId : String
  downloadsTotal : Option ℤ
  viewsTotal : Option ℤ
  collectedAt : String
deriving DecidableEq, Repr

/-- The join `photo_stats_snapshots p JOIN collection_runs r ON r.id =
p.run_id` restricted to the columns the view reads. -/
def joinedRows (db : DB) : List JoinedRow :=
  db.photoSnapshots.filterMap fun p =>
    (db.runs.find? (fun r => r.id = p.runId)).map fun r =>
      ⟨p.id, p.row.photoId, p.row.downloadsTotal, p.row.viewsTotal,
        r.collectedAt⟩

/-- The window order `ORDER BY r.collected_at DESC, p.id DESC`: `a` ranks
before `b` when it is strictly greater in the `(collected_at, id)`
lexicographic key. -/
def rankKeyGt (a b : JoinedRow) : Bool :=
  strLtB b.collectedAt a.collectedAt ||
    (a.collectedAt == b.collectedAt && b.id < a.id)

/-- The row ranked first (`row_num = 1`) among the given rows: the maximum
under the window order. Snapshot ids are a primary key, so the order is
total on any real table and the maximum is the unique rank-1 row. -/
def latestOf : List JoinedRow → Option JoinedRow
  | [] => none
  | r :: rest =>
    match latestOf rest with
    | none => some r
    | some m => if rankKeyGt m r then some m else some r

/-- The row ranked second (`row_num = 2`): the maximum after removing the
rank-1 row. -/
def previousOf (rows : List JoinedRow) : Option JoinedRow :=
  match latestOf rows with
  | none => none
  | some m => latestOf (rows.filter fun r => r.id ≠ m.id)

/-- SQL subtraction: NULL-propagating. -/
def sqlSub (a b : Option ℤ) : Option ℤ :=
  match a, b with
  | some x, some y => some (x - y)
  | _, _ => none

/-- SQL `COALESCE` over two nullable integers. -/
def sqlCoalesce (a b : Option ℤ) : Option ℤ :=
  match a with
  | some x => some x
  | none => b

/-- One output row of `PHOTO_LATEST_QUERY` (exporters.py lines 64-76). -/
structure LatestEntry where
  photoId : String
  downloadsTotal : Option ℤ
  viewsTotal : Option ℤ
  latestCollectedAt : String
  previousCollectedAt : Option String
  downloadsDelta : Option ℤ
  viewsDelta : Option ℤ
deriving DecidableEq, Repr

/-- The rows of the photo's partition in the `ranked` CTE. -/
def photoRowsFor (db : DB) (pid : String) : List JoinedRow :=
  (joinedRows db).filter fun r => r.photoId = pid

/-- The `PHOTO_LATEST_QUERY` output row for one photo id: the rank-1 row
LEFT JOINed to the rank-2 row, with each delta
`latest - COALESCE(previous, latest)` (exporters.py lines 64-78). `none`
when the photo has no snapshot at all. The final ORDER BY of the query is
not modelled; no claim mentions it. -/
def photoLatestEntry (db : DB) (pid : String) : Option LatestEntry :=
  match latestOf (photoRowsFor db pid) with
  | none => none
  | some l =>
    let prev := previousOf (photoRowsFor db pid)
    some
      { photoId := pid
        downloadsTotal := l.downloadsTotal
        viewsTotal := l.viewsTotal
        latestCollectedAt := l.collectedAt
        previousCollectedAt := prev.map (fun p => p.collectedAt)
        downloadsDelta := sqlSub l.downloadsTotal
          (sqlCoalesce (prev.bind fun p => p.downloadsTotal) l.downloadsTotal)
        viewsDelta := sqlSub l.viewsTotal
          (sqlCoalesce (prev.bind fun p => p.viewsTotal) l.viewsTotal) }

/-! ## Dashboard collection trigger (`_start_collection`, dashboard.py
lines 957-995) -/

/-- The shared collection-state dictionary fields that `_start_collection`
writes (dashboard.py lines 967-981). -/
structure CollectionState where
  phase : String
  message : String
  username : String
  completedCalls : ℕ
  expectedTotalCalls : Option ℕ
  percentComplete : Option ℚ
  lastEndpoint : String
  lastStatusCode : Option ℕ
  rateLimited : Bool
  rateLimitWaitSeconds : Option ℚ
  updatedAt : String
deriving DecidableEq, Repr

/-- A worker thread handle: whether `is_alive()` currently holds, plus an
identity so distinct workers are distinguishable. -/
structure Worker where
  workerId : ℕ
  alive : Bool
deriving DecidableEq, Repr

/-- The per-process dashboard state touched by `_start_collection`: the
single-slot `worker_ref["thread"]` handle, the shared collection state, and
a counter supplying fresh worker identities. All accesses happen under
`state_lock`, so the function is modelled as a sequential state transform. -/
structure DashboardState where
  worker : Option Worker
  collectionState : CollectionState
  nextWorkerId : ℕ
deriving DecidableEq, Repr

/-- `_start_collection` (dashboard.py lines 957-995): under the lock, if a
stored worker exists and is alive, return "Collection is already running."
without touching anything; otherwise reset the collection state, store and
start a fresh worker, and return the started message. The third component is
whether a new worker was started. -/
def startCollection (s : DashboardState) (username nowStr : String) :
    DashboardState × String × Bool :=
  let runningGuard :=
    match s.worker with
    | some w => w.alive
    | none => false
  if runningGuard then (s, "Collection is already running.", false)
  else
    ({ worker := some ⟨s.nextWorkerId, true⟩
       collectionState :=
        { phase := "running"
          message := "Collection started for @" ++ username ++ "."
          username := username
          completedCalls := 0
          expectedTotalCalls := none
          percentComplete := some 0
          lastEndpoint := "-"
          lastStatusCode := none
          rateLimited := false
          rateLimitWaitSeconds := none
          updatedAt := nowStr }
       nextWorkerId := s.nextWorkerId + 1 },
      "Collection started for @" ++ username ++
        ". Progress updates are available in the Collection Progress tab.",
      true)

/-! ## Python call compatibility (collector.py lines 133-137, 162-171
against api.py lines 28-54, 86-93)

`collect_snapshot` constructs the client and iterates photos with keyword
arguments; a Python call raises `TypeError` when it passes a keyword that
the callee's signature does not declare. -/

/-- The parameter names of `UnsplashClient.__init__` (api.py lines 28-36). -/
def unsplashClientInitParams : List String :=
  ["access_key", "timeout_seconds", "user_agent",
    "min_request_interval_seconds", "rate_limit_retry_max_sleep_seconds"]

/-- The keyword arguments `collect_snapshot` passes when constructing the
client (collector.py lines 133-137). -/
def collectorClientCallKeywords : List String :=
  ["min_request_interval_seconds", "request_observer"]

/-- The parameter names of `iter_user_photos` (api.py lines 86-93). -/
def iterUserPhotosParams : List String :=
  ["username", "per_page", "max_pages", "max_items"]

/-- The keyword arguments `collect_snapshot` passes to the photo iterator
(collector.py lines 162-171). -/
def collectorIterCallKeywords : List String :=
  ["per_page", "max_pages", "max_items", "include_stats",
    "stats_resolution", "stats_quantity", "page_delay_seconds"]

/-- A Python call binds without `TypeError` only when every supplied keyword
is a declared parameter (no `**kwargs` appears in either signature). -/
def pythonCallBinds (declaredParams suppliedKeywords : List String) : Bool :=
  suppliedKeywords.all fun k => declaredParams.contains k

/-! ## Theorems -/

/-- Helper: `_is_rate_limited` decides exactly the spec's disjunction over
the stored remaining quota, the message, and the structured error entries. -/
theorem isRateLimited_eq_true_iff (st : ClientState) (status : ℤ)
    (message : String) (payload : Option ErrorPayload) :
    isRateLimited st status message payload = true ↔
      ((status = 403 ∨ status = 429) ∧
        (st.rateLimitRemaining = some 0 ∨ mentionsRateLimit message = true ∨
          ∃ e ∈ payloadEntries payload, mentionsRateLimit e = true)) := by
  rcases payload with _ | ⟨_ | es⟩ <;>
    · unfold isRateLimited payloadEntries
      split_ifs with h1 h2 h3 <;>
        simp_all [List.any_eq_true, not_and_or] <;> tauto

/-- C3: the client's HTTP-error branch retries (sleep and re-issue) exactly
when the status is 403 or 429 and either the observed remaining quota is 0 or
the message or a structured error entry mentions "rate limit" / "too many
requests" case-insensitively; every other error response raises an API error
carrying the status code, message, and optional payload. -/
theorem httpError_retry_iff_rate_limited (st : ClientState) (h : Headers)
    (now : ℚ) (hits : ℕ) (status : ℤ) (message : String)
    (payload : Option ErrorPayload) :
    ((∃ w, handleHTTPError st h now hits status message payload =
        .retrySleep w) ↔ specRateLimitCond st h status message payload) ∧
    (¬ specRateLimitCond st h status message payload →
      handleHTTPError st h now hits status message payload =
        .raiseApiError status message payload) := by
  have key := isRateLimited_eq_true_iff (updateRateLimitHeaders st h) status
    message payload
  by_cases hb : isRateLimited (updateRateLimitHeaders st h) status message
      payload = true
  · refine ⟨⟨fun _ => key.mp hb,
      fun _ => ⟨computeRateLimitWaitSeconds (updateRateLimitHeaders st h) h
        now hits, ?_⟩⟩, fun hn => absurd (key.mp hb) hn⟩
    simp [handleHTTPError, hb]
  · have hb' : isRateLimited (updateRateLimitHeaders st h) status message
        payload = false := by
      simpa using hb
    have hne : ¬ specRateLimitCond st h status message payload := fun hs =>
      hb (key.mpr hs)
    refine ⟨⟨fun hw => ?_, fun hs => absurd hs hne⟩, fun _ => ?_⟩
    · obtain ⟨w, hw⟩ := hw
      simp [handleHTTPError, hb'] at hw
    · simp [handleHTTPError, hb']

/-- C3 witness: a 429 with remaining-quota header 0 retries with a sleep,
and a 429 with remaining quota 7 and a benign message raises the API error. -/
theorem httpError_retry_iff_rate_limited_witness :
    (∃ w, handleHTTPError (initClientState 0 1800)
        ⟨none, none, none, some (some 0)⟩ 0 0 429 "Forbidden" none =
        .retrySleep w) ∧
    handleHTTPError (initClientState 0 1800)
        ⟨none, none, none, some (some 7)⟩ 0 0 429 "Request was denied" none =
      .raiseApiError 429 "Request was denied" none :=
  ⟨(httpError_retry_iff_rate_limited (initClientState 0 1800)
      ⟨none, none, none, some (some 0)⟩ 0 0 429 "Forbidden" none).1.mpr
      (by decide),
    (httpError_retry_iff_rate_limited (initClientState 0 1800)
      ⟨none, none, none, some (some 7)⟩ 0 0 429 "Request was denied" none).2
      (by decide)⟩

/-- C6: the snapshot builder constructs the client with a `request_observer`
keyword and calls the photo iterator with stats keywords, but the client's
`__init__` and `iter_user_photos` signatures declare no such parameters, so
both calls fail to bind (Python raises `TypeError`) — no request is ever
reported to an observer. -/
theorem collector_observer_call_does_not_bind :
    pythonCallBinds unsplashClientInitParams collectorClientCallKeywords =
      false ∧
    pythonCallBinds iterUserPhotosParams collectorIterCallKeywords = false := by
  decide

/-- C7: with auto-throttle enabled and a positive observed hourly limit the
derived interval is `3600 / (limit × fraction)` and the applied floor is
`max(current_floor, interval)`; the floor is never lowered, and it is left
unchanged when no limit was observed or the fraction is non-positive. -/
theorem autoThrottle_never_lowers_floor :
    (∀ (floorQ : ℚ) (limit : Option ℤ) (fraction : ℚ),
      floorQ ≤ applyAutoThrottle floorQ limit fraction) ∧
    (∀ (floorQ fraction : ℚ), applyAutoThrottle floorQ none fraction = floorQ) ∧
    (∀ (floorQ : ℚ) (limit : Option ℤ) (fraction : ℚ), fraction ≤ 0 →
      applyAutoThrottle floorQ limit fraction = floorQ) ∧
    (∀ (floorQ : ℚ) (n : ℤ) (fraction : ℚ), 0 < n → 0 < fraction →
      requestIntervalForHourlyBudget (some n) fraction =
        some (3600 / ((n : ℚ) * fraction)) ∧
      applyAutoThrottle floorQ (some n) fraction =
        max floorQ (3600 / ((n : ℚ) * fraction))) := by
  refine ⟨fun floorQ limit fraction => ?_, fun floorQ fraction => rfl,
    fun floorQ limit fraction hf => ?_, fun floorQ n fraction hn hf => ?_⟩
  · unfold applyAutoThrottle
    cases requestIntervalForHourlyBudget limit fraction with
    | none => exact le_refl _
    | some a => exact le_trans (le_max_left _ a) (le_max_right 0 _)
  · cases limit with
    | none => rfl
    | some n =>
      unfold applyAutoThrottle requestIntervalForHourlyBudget
      by_cases hn : n ≤ 0 <;> simp [hn, hf]
  · have hn' : ¬ (n ≤ 0) := not_le.mpr hn
    have hf' : ¬ (fraction ≤ 0) := not_le.mpr hf
    have htarget : (0 : ℚ) < (n : ℚ) * fraction :=
      mul_pos (by exact_mod_cast hn) hf
    have htarget' : ¬ ((n : ℚ) * fraction ≤ 0) := not_le.mpr htarget
    have hval : requestIntervalForHourlyBudget (some n) fraction =
        some (3600 / ((n : ℚ) * fraction)) := by
      unfold requestIntervalForHourlyBudget
      simp [hn', hf', htarget']
    refine ⟨hval, ?_⟩
    unfold applyAutoThrottle
    rw [hval]
    have hpos : (0 : ℚ) < 3600 / ((n : ℚ) * fraction) :=
      div_pos (by norm_num) htarget
    exact max_eq_right (le_trans (le_of_lt hpos) (le_max_right _ _))

/-- C7 witness: with a caller floor of 2s, an observed limit of 50/h and
fraction 0.8, the derived interval is 90s and the applied floor is 90s ≥ 2s;
with fraction 0 the floor is unchanged. -/
theorem autoThrottle_never_lowers_floor_witness :
    (2 : ℚ) ≤ applyAutoThrottle 2 (some 50) (4/5) ∧
    applyAutoThrottle 2 none (4/5) = 2 ∧
    applyAutoThrottle 2 (some 50) 0 = 2 ∧
    (requestIntervalForHourlyBudget (some 50) (4/5) =
        some (3600 / ((50 : ℚ) * (4/5))) ∧
      applyAutoThrottle 2 (some 50) (4/5) = max 2 (3600 / ((50 : ℚ) * (4/5)))) :=
  ⟨autoThrottle_never_lowers_floor.1 2 (some 50) (4/5),
    autoThrottle_never_lowers_floor.2.1 2 (4/5),
    autoThrottle_never_lowers_floor.2.2.1 2 (some 50) 0 (le_refl 0),
    autoThrottle_never_lowers_floor.2.2.2 2 50 (4/5) (by norm_num)
      (by norm_num)⟩

/-- C9: whenever the stored collection worker is alive, a second start
trigger returns "Collection is already running." and changes nothing: the
worker handle, the collection state, and the worker-id counter are untouched
and no new worker is started. -/
theorem startCollection_second_trigger_noop (s : DashboardState) (w : Worker)
    (username nowStr : String) (hw : s.worker = some w)
    (ha : w.alive = true) :
    startCollection s username nowStr =
      (s, "Collection is already running.", false) := by
  unfold startCollection
  rw [hw]
  simp [ha]

/-- C9 witness: a concrete state with an alive worker is returned unchanged
with the already-running message. -/
theorem startCollection_second_trigger_noop_witness :
    startCollection
        ⟨some ⟨0, true⟩,
          ⟨"running", "Collection started for @u.", "u", 3, none, none, "-",
            none, false, none, "t0"⟩, 1⟩ "u" "t1" =
      (⟨some ⟨0, true⟩,
          ⟨"running", "Collection started for @u.", "u", 3, none, none, "-",
            none, false, none, "t0"⟩, 1⟩,
        "Collection is already running.", false) :=
  startCollection_second_trigger_noop _ ⟨0, true⟩ "u" "t1" rfl rfl

/-- Helper: every page request issued by the page loop carries the `per_page`
value the loop was started with. -/
theorem iterPagesGo_requests_perPage (rs : List (Option (List ℕ))) :
    ∀ (page emitted : ℕ) (pp : ℤ) (mp mi : Option ℕ) (q : ℕ × ℤ),
      q ∈ (iterPagesGo rs page emitted pp mp mi).pageRequests → q.2 = pp := by
  induction rs with
  | nil =>
    intro page emitted pp mp mi q hq
    unfold iterPagesGo at hq
    cases hpl : pageLimitReached mp page <;> simp [hpl] at hq
  | cons resp rest ih =>
    intro page emitted pp mp mi q hq
    unfold iterPagesGo at hq
    cases hpl : pageLimitReached mp page
    · rw [hpl] at hq
      simp only [Bool.false_eq_true, if_false] at hq
      cases resp with
      | none => simp at hq; rw [hq]
      | some photos =>
        by_cases he : photos.isEmpty <;> simp only [he, if_true, if_false] at hq
        · simp at hq; rw [hq]
        · by_cases hs : (emitFromPage photos emitted mi).2.2 <;>
            simp only [hs, if_true, if_false] at hq
          · simp at hq; rw [hq]
          · by_cases hl : (photos.length : ℤ) < pp <;>
              simp only [hl, if_true, if_false] at hq
            · simp at hq; rw [hq]
            · simp at hq
              rcases hq with hq | hq
              · rw [hq]
              · exact ih _ _ _ _ _ q hq
    · rw [hpl] at hq
      simp at hq

/-- C10: every page request issued by `iter_user_photos` uses the silently
clamped page size `max(1, min(requested, 30))`, for every requested value
including zero, negative, and oversized ones; no out-of-range value is
rejected or passed through. -/
theorem iterUserPhotos_clamps_per_page (responses : List (Option (List ℕ)))
    (requested : ℤ) (mp mi : Option ℕ) (q : ℕ × ℤ)
    (hq : q ∈ (iterUserPhotos responses requested mp mi).pageRequests) :
    q.2 = max 1 (min requested 30) :=
  iterPagesGo_requests_perPage responses 1 0 (clampPerPage requested) mp mi q hq

/-- C10 witness: a requested page size of 0 is clamped to 1 on the issued
request. -/
theorem iterUserPhotos_clamps_per_page_witness :
    ((1 : ℕ), (1 : ℤ)).2 = max 1 (min 0 30) :=
  iterUserPhotos_clamps_per_page [some [7]] 0 none none (1, 1) (by decide)

/-- C4 counterexample: the claim says an HTTP-date `Retry-After` yields the
seconds until the date "floored to the next whole second above zero". With
the date half a second in the future (epoch 10 at now 19/2) the code returns
exactly 1/2: a value below one second that is not a whole number of seconds,
contradicting every reading of the flooring clause. -/
theorem retryAfter_httpDate_wait_fractional :
    computeRateLimitWaitSeconds (initClientState 0 defaultRetryMaxSleep)
        ⟨some (.httpDate 10), none, none, none⟩ (19/2) 0 = 1/2 ∧
    (1 : ℚ)/2 < 1 ∧ ¬ (∃ z : ℤ, (1 : ℚ)/2 = (z : ℚ)) := by
  have hcompute : computeRateLimitWaitSeconds
      (initClientState 0 defaultRetryMaxSleep)
      ⟨some (.httpDate 10), none, none, none⟩ (19/2) 0 = 1/2 := by
    have hparse : parseRetryAfterSeconds (19/2)
        (some (RetryAfterValue.httpDate 10)) = some (1/2) := by
      unfold parseRetryAfterSeconds
      norm_num
    unfold computeRateLimitWaitSeconds
    rw [hparse]
    unfold initClientState defaultRetryMaxSleep
    norm_num [min_def]
  refine ⟨hcompute, by norm_num, ?_⟩
  rintro ⟨z, hz⟩
  have h1 : (1 : ℚ) = 2 * (z : ℚ) := by linarith
  have h2 : (1 : ℤ) = 2 * z := by exact_mod_cast h1
  omega

/-- C4 (amended): the wait is computed in priority order — a parseable
Retry-After value (a positive delay in seconds, or an HTTP date yielding the
exact, possibly fractional, seconds until that date, used only when strictly
positive) capped at the ceiling; otherwise a future reset epoch yielding
`reset - now + 1`, same cap; otherwise backoff
`max(min_interval, 5) * 2^min(retry_count, 8)`, same cap. The ceiling
defaults to 1800s and is floor-enforced to at least 5s, and Retry-After
"120" yields `min(120, cap)`. -/
theorem rateLimitWait_priority_and_cap :
    (∀ (st : ClientState) (h : Headers) (now : ℚ) (hits : ℕ) (s : ℚ),
      parseRetryAfterSeconds now h.retryAfter = some s →
      computeRateLimitWaitSeconds st h now hits =
        min s st.rateLimitRetryMaxSleepSeconds) ∧
    (∀ (st : ClientState) (h : Headers) (now : ℚ) (hits : ℕ) (r : ℚ),
      parseRetryAfterSeconds now h.retryAfter = none →
      h.rateLimitReset = some (.numeric r) → now < r →
      computeRateLimitWaitSeconds st h now hits =
        min (r - now + 1) st.rateLimitRetryMaxSleepSeconds) ∧
    (∀ (st : ClientState) (h : Headers) (now : ℚ) (hits : ℕ),
      parseRetryAfterSeconds now h.retryAfter = none →
      (∀ r, h.rateLimitReset = some (.numeric r) → r ≤ now) →
      computeRateLimitWaitSeconds st h now hits =
        min (max st.minRequestIntervalSeconds 5 * 2 ^ min hits 8)
          st.rateLimitRetryMaxSleepSeconds) ∧
    (∀ (now e : ℚ), parseRetryAfterSeconds now (some (.httpDate e)) =
      if 0 < e - now then some (e - now) else none) ∧
    (∀ (mi ms : ℚ), (initClientState mi ms).rateLimitRetryMaxSleepSeconds =
      max 5 ms) ∧
    ((initClientState 0 defaultRetryMaxSleep).rateLimitRetryMaxSleepSeconds =
      1800) ∧
    (∀ (st : ClientState) (h : Headers) (now : ℚ) (hits : ℕ),
      h.retryAfter = some (.numeric 120) →
      computeRateLimitWaitSeconds st h now hits =
        min 120 st.rateLimitRetryMaxSleepSeconds) := by
  refine ⟨fun st h now hits s hp => ?_, fun st h now hits r hp hr hlt => ?_,
    fun st h now hits hp hle => ?_, fun now e => rfl, fun mi ms => rfl,
    max_eq_right (by norm_num [defaultRetryMaxSleep]),
    fun st h now hits ha => ?_⟩
  · unfold computeRateLimitWaitSeconds
    rw [hp]
  · unfold computeRateLimitWaitSeconds
    rw [hp, hr]
    simp [hlt]
  · unfold computeRateLimitWaitSeconds
    rw [hp]
    cases hr : h.rateLimitReset with
    | none => rfl
    | some v =>
      cases v with
      | numeric r =>
        have := hle r hr
        simp [not_lt.mpr this]
      | malformed => rfl
  · unfold computeRateLimitWaitSeconds
    rw [ha]
    norm_num [parseRetryAfterSeconds]

/-- C4 witness: concrete instantiations of the wait rules — Retry-After
"120" gives `min(120, 1800) = 120`; a future reset epoch 100 at now 0 gives
`min(101, 1800) = 101`; no header at all gives the backoff
`min(5 * 2^0, 1800) = 5`. -/
theorem rateLimitWait_priority_and_cap_witness :
    computeRateLimitWaitSeconds (initClientState 0 defaultRetryMaxSleep)
        ⟨some (.numeric 120), none, none, none⟩ 0 0 =
      min 120 (initClientState 0
        defaultRetryMaxSleep).rateLimitRetryMaxSleepSeconds ∧
    computeRateLimitWaitSeconds (initClientState 0 defaultRetryMaxSleep)
        ⟨none, some (.numeric 100), none, none⟩ 0 0 =
      min (100 - 0 + 1) (initClientState 0
        defaultRetryMaxSleep).rateLimitRetryMaxSleepSeconds ∧
    computeRateLimitWaitSeconds (initClientState 0 defaultRetryMaxSleep)
        ⟨none, none, none, none⟩ 0 0 =
      min (max (initClientState 0
          defaultRetryMaxSleep).minRequestIntervalSeconds 5 * 2 ^ min 0 8)
        (initClientState 0
          defaultRetryMaxSleep).rateLimitRetryMaxSleepSeconds :=
  ⟨rateLimitWait_priority_and_cap.2.2.2.2.2.2
      (initClientState 0 defaultRetryMaxSleep)
      ⟨some (.numeric 120), none, none, none⟩ 0 0 rfl,
    rateLimitWait_priority_and_cap.2.1
      (initClientState 0 defaultRetryMaxSleep)
      ⟨none, some (.numeric 100), none, none⟩ 0 0 100 (by decide) rfl
      (by norm_num),
    rateLimitWait_priority_and_cap.2.2.1
      (initClientState 0 defaultRetryMaxSleep)
      ⟨none, none, none, none⟩ 0 0 (by decide) (by intro r hr; cases hr)⟩

/-- Helper: with no item limit, the page emitter yields the whole page and
never returns early. -/
theorem emitFromPage_no_limit (l : List ℕ) :
    ∀ e, emitFromPage l e none = (l, e + l.length, false) := by
  induction l with
  | nil => intro e; simp [emitFromPage]
  | cons x xs ih =>
    intro e
    simp only [emitFromPage, ih (e + 1), List.length_cons, Prod.mk.injEq,
      true_and, and_true]
    omega

/-- Helper: the page emitter's counter accounting under an item limit:
starting below the limit, the new counter is the old one plus the yielded
photos, an early return happens at most at the limit, and a normal page end
leaves the counter strictly below the limit. -/
theorem emitFromPage_limit_bounds (l : List ℕ) :
    ∀ (e k : ℕ), e < k →
      (emitFromPage l e (some k)).2.1 =
        e + (emitFromPage l e (some k)).1.length ∧
      ((emitFromPage l e (some k)).2.2 = true →
        (emitFromPage l e (some k)).2.1 ≤ k) ∧
      ((emitFromPage l e (some k)).2.2 = false →
        (emitFromPage l e (some k)).2.1 < k) := by
  induction l with
  | nil =>
    intro e k hek
    simp [emitFromPage]
    omega
  | cons x xs ih =>
    intro e k hek
    by_cases hstop : k ≤ e + 1
    · simp [emitFromPage, hstop]
      omega
    · have h1 : e + 1 < k := by omega
      obtain ⟨ihe, ihtrue, ihfalse⟩ := ih (e + 1) k h1
      simp only [emitFromPage, hstop, if_false]
      refine ⟨?_, fun ht => ihtrue ht, fun hf => ihfalse hf⟩
      simp [ihe]
      omega

/-- Helper: with a page cap `m`, paging that starts at `page` issues at most
`m + 1 - page` further requests. -/
theorem iterPagesGo_maxPages_bound (rs : List (Option (List ℕ))) :
    ∀ (page e : ℕ) (pp : ℤ) (m : ℕ) (mi : Option ℕ),
      (iterPagesGo rs page e pp (some m) mi).pageRequests.length ≤
        m + 1 - page := by
  induction rs with
  | nil =>
    intro page e pp m mi
    unfold iterPagesGo
    cases hpl : pageLimitReached (some m) page <;> simp
  | cons resp rest ih =>
    intro page e pp m mi
    unfold iterPagesGo
    cases hpl : pageLimitReached (some m) page with
    | true => simp
    | false =>
      have hpage : page ≤ m := by
        unfold pageLimitReached at hpl
        simpa using hpl
      cases resp with
      | none => simp; omega
      | some photos =>
        by_cases he : photos.isEmpty
        · simp [he]; omega
        · by_cases hs : (emitFromPage photos e mi).2.2
          · simp [he, hs]; omega
          · by_cases hl : (photos.length : ℤ) < pp
            · simp [he, hs, hl]; omega
            · have := ih (page + 1) (emitFromPage photos e mi).2.1 pp m mi
              simp [he, hs, hl]
              omega

/-- Helper: with an item cap `k`, paging that starts with `e < k` items
emitted keeps the total emitted at most `k`. -/
theorem iterPagesGo_maxItems_bound (rs : List (Option (List ℕ))) :
    ∀ (page e : ℕ) (pp : ℤ) (mp : Option ℕ) (k : ℕ), e < k →
      e + (iterPagesGo rs page e pp mp (some k)).photos.length ≤ k := by
  induction rs with
  | nil =>
    intro page e pp mp k hek
    unfold iterPagesGo
    cases hpl : pageLimitReached mp page <;> simp <;> omega
  | cons resp rest ih =>
    intro page e pp mp k hek
    unfold iterPagesGo
    cases hpl : pageLimitReached mp page with
    | true => simp; omega
    | false =>
      cases resp with
      | none => simp; omega
      | some photos =>
        by_cases he : photos.isEmpty
        · simp [he]; omega
        · obtain ⟨hacct, htrue, hfalse⟩ := emitFromPage_limit_bounds photos e k hek
          by_cases hs : (emitFromPage photos e (some k)).2.2
          · have h1 := htrue hs
            simp [he, hs]
            omega
          · have hlt := hfalse (by simpa using hs)
            by_cases hl : (photos.length : ℤ) < pp
            · simp [he, hs, hl]
              omega
            · have := ih (page + 1) (emitFromPage photos e (some k)).2.1 pp mp k hlt
              simp [he, hs, hl]
              omega

/-- C5: pagination terminates exactly as specified — a page shorter than the
clamped page size ends iteration with that single fetch and no further page
is requested; a full page followed by a 0-item page ends iteration after
fetching the 0-item page exactly once; a non-list page is treated as normal
end-of-data (the iterator returns an ordinary outcome, it has no error
case); a page cap bounds the number of page requests and a positive item cap
bounds the number of photos yielded. -/
theorem iterUserPhotos_termination :
    (∀ (l : List ℕ) (rest : List (Option (List ℕ))) (pp : ℤ),
      (l.length : ℤ) < clampPerPage pp →
      iterUserPhotos (some l :: rest) pp none none =
        ⟨l, [(1, clampPerPage pp)], false⟩) ∧
    (∀ (l : List ℕ) (rest : List (Option (List ℕ))) (pp : ℤ),
      (l.length : ℤ) = clampPerPage pp →
      iterUserPhotos (some l :: some [] :: rest) pp none none =
        ⟨l, [(1, clampPerPage pp), (2, clampPerPage pp)], false⟩) ∧
    (∀ (rest : List (Option (List ℕ))) (pp : ℤ),
      iterUserPhotos (none :: rest) pp none none =
        ⟨[], [(1, clampPerPage pp)], false⟩) ∧
    (∀ (responses : List (Option (List ℕ))) (pp : ℤ) (m : ℕ)
      (mi : Option ℕ),
      (iterUserPhotos responses pp (some m) mi).pageRequests.length ≤ m) ∧
    (∀ (responses : List (Option (List ℕ))) (pp : ℤ) (mp : Option ℕ)
      (k : ℕ), 0 < k →
      (iterUserPhotos responses pp mp (some k)).photos.length ≤ k) := by
  refine ⟨fun l rest pp hshort => ?_, fun l rest pp hfull => ?_,
    fun rest pp => rfl, fun responses pp m mi => ?_,
    fun responses pp mp k hk => ?_⟩
  · unfold iterUserPhotos
    rcases l with _ | ⟨x, xs⟩
    · simp [iterPagesGo, pageLimitReached]
    · simp [iterPagesGo, pageLimitReached, emitFromPage_no_limit, hshort]
      intro hc
      exfalso
      simp at hshort
      omega
  · rcases l with _ | ⟨x, xs⟩
    · exfalso
      have h1 : (1 : ℤ) ≤ clampPerPage pp := le_max_left 1 _
      rw [← hfull] at h1
      simp at h1
    · unfold iterUserPhotos
      simp [iterPagesGo, pageLimitReached, emitFromPage_no_limit, hfull]
      simp at hfull
      omega
  · have := iterPagesGo_maxPages_bound responses 1 0 (clampPerPage pp) m mi
    unfold iterUserPhotos
    omega
  · have := iterPagesGo_maxItems_bound responses 1 0 (clampPerPage pp) mp k hk
    unfold iterUserPhotos
    omega

/-- C5 witness: with page size 2, a 1-item page stops after one fetch; a
2-item page then a 0-item page stops after the second fetch; a non-list page
is end-of-data; caps of 1 page / 3 items bound the outcome. -/
theorem iterUserPhotos_termination_witness :
    iterUserPhotos [some [7], some [8]] 2 none none =
      ⟨[7], [(1, clampPerPage 2)], false⟩ ∧
    iterUserPhotos [some [7, 8], some [], some [9]] 2 none none =
      ⟨[7, 8], [(1, clampPerPage 2), (2, clampPerPage 2)], false⟩ ∧
    iterUserPhotos [none, some [9]] 2 none none =
      ⟨[], [(1, clampPerPage 2)], false⟩ ∧
    (iterUserPhotos [some [7, 8], some [8, 9]] 2 (some 1)
      none).pageRequests.length ≤ 1 ∧
    (iterUserPhotos [some [7, 8], some [8, 9]] 2 none
      (some 3)).photos.length ≤ 3 :=
  ⟨iterUserPhotos_termination.1 [7] [some [8]] 2 (by decide),
    iterUserPhotos_termination.2.1 [7, 8] [some [9]] 2 (by decide),
    iterUserPhotos_termination.2.2.1 [some [9]] 2,
    iterUserPhotos_termination.2.2.2.1 [some [7, 8], some [8, 9]] 2 1 none,
    iterUserPhotos_termination.2.2.2.2 [some [7, 8], some [8, 9]] 2 none 3
      (by decide)⟩

/-- Helper: the lenient photo loop never fails; it counts every photo,
counts missing-statistics photos as errors, and appends a row for every
photo — including the ones whose statistics are missing. -/
theorem collectPhotoRows_lenient (username : String) (photos : List Photo) :
    ∀ (seen errs : ℕ) (rows : List PhotoRow),
      collectPhotoRows false username photos seen errs rows =
        .ok (seen + photos.length,
          errs + (photos.filter fun p => p.statistics.isNone).length,
          rows ++ photos.map buildPhotoRow) := by
  induction photos with
  | nil =>
    intro seen errs rows
    simp [collectPhotoRows]
  | cons p rest ih =>
    intro seen errs rows
    unfold collectPhotoRows
    by_cases hp : p.statistics.isNone
    · rw [if_pos hp, if_neg (by simp), ih]
      simp [hp, List.append_assoc]
      omega
    · rw [if_neg hp, ih]
      simp [hp, List.append_assoc]
      omega

/-- Helper: in strict mode a missing-statistics photo anywhere in the list
makes the photo loop raise. -/
theorem collectPhotoRows_strict_aborts (username : String) (photos : List Photo) :
    ∀ (seen errs : ℕ) (rows : List PhotoRow) (p : Photo),
      p ∈ photos → p.statistics = none →
      ∃ e, collectPhotoRows true username photos seen errs rows = .error e := by
  induction photos with
  | nil =>
    intro seen errs rows p hp
    cases hp
  | cons q rest ih =>
    intro seen errs rows p hp hstat
    unfold collectPhotoRows
    by_cases hq : q.statistics.isNone
    · exact ⟨missingStatsMessage q.id username, by rw [if_pos hq, if_pos rfl]⟩
    · rcases List.mem_cons.mp hp with h | h
      · subst h
        rw [hstat] at hq
        simp at hq
      · rw [if_neg hq]
        exact ih (seen + 1) errs (rows ++ [buildPhotoRow q]) p h hstat

/-- C2 counterexample: in lenient mode a photo with missing statistics is
counted in `photo_errors` yet still contributes a persisted row — here two
photos are seen, the second has no statistics, and the persisted run holds
rows for both photos (`photos_saved = 2`), refuting "it contributes no
persisted row ... persisted with the remaining photos". -/
theorem lenient_missing_stats_row_still_persisted :
    (collectSnapshotModel emptyDB false "u" "t0" (some 2) (some 5)
        ⟨⟨some 1, some 0⟩, ⟨some 2, some 0⟩, ⟨some 3, some 0⟩⟩
        [⟨"p1", none, none, none, none, some 3,
            some ⟨⟨some 10, some 1⟩, ⟨some 20, some 2⟩, ⟨some 4, some 0⟩⟩⟩,
          ⟨"p2", none, none, none, none, none, none⟩]).2 =
      .ok ⟨1, 2, 2, 1⟩ ∧
    ((collectSnapshotModel emptyDB false "u" "t0" (some 2) (some 5)
        ⟨⟨some 1, some 0⟩, ⟨some 2, some 0⟩, ⟨some 3, some 0⟩⟩
        [⟨"p1", none, none, none, none, some 3,
            some ⟨⟨some 10, some 1⟩, ⟨some 20, some 2⟩, ⟨some 4, some 0⟩⟩⟩,
          ⟨"p2", none, none, none, none, none, none⟩]).1.photoSnapshots.map
      fun r => r.row.photoId) = ["p1", "p2"] := by
  constructor <;> rfl

/-- C2 (amended): in strict mode a missing-statistics photo aborts the whole
run before the store is touched, so zero rows are persisted; in lenient mode
such a photo is counted in `photo_errors` but still contributes a row (with
null statistic totals), the run is persisted with rows for all seen photos,
and the summary reports `photos_seen = photos_saved = |photos|` and
`photo_errors` equal to the number of missing-statistics photos. -/
theorem missing_stats_strict_vs_lenient :
    (∀ (db : DB) (username collectedAt : String) (tp tl : Option ℤ)
      (us : StatsTriple) (photos : List Photo) (p : Photo),
      p ∈ photos → p.statistics = none →
      ∃ e, collectSnapshotModel db true username collectedAt tp tl us photos =
        (db, .error e)) ∧
    (∀ (username : String) (photos : List Photo),
      collectPhotoRows false username photos 0 0 [] =
        .ok (photos.length,
          (photos.filter fun p => p.statistics.isNone).length,
          photos.map buildPhotoRow)) ∧
    (∀ (db : DB) (username collectedAt : String) (tp tl : Option ℤ)
      (us : StatsTriple) (photos : List Photo) (s : RunSummary),
      (collectSnapshotModel db false username collectedAt tp tl us
        photos).2 = .ok s →
      s.photosSeen = photos.length ∧ s.photosSaved = photos.length ∧
        s.photoErrors =
          (photos.filter fun p => p.statistics.isNone).length) := by
  refine ⟨fun db username collectedAt tp tl us photos p hp hstat => ?_,
    fun username photos => ?_,
    fun db username collectedAt tp tl us photos s hs => ?_⟩
  · obtain ⟨e, he⟩ :=
      collectPhotoRows_strict_aborts username photos 0 0 [] p hp hstat
    exact ⟨e, by unfold collectSnapshotModel; rw [he]⟩
  · simpa using collectPhotoRows_lenient username photos 0 0 []
  · have hloop := collectPhotoRows_lenient username photos 0 0 []
    unfold collectSnapshotModel at hs
    rw [hloop] at hs
    simp only [Nat.zero_add, List.nil_append] at hs
    cases hpr : (persistRun db username collectedAt tp tl us
        (photos.map buildPhotoRow)).2 with
    | none =>
      rw [show persistRun db username collectedAt tp tl us
          (photos.map buildPhotoRow) =
          ((persistRun db username collectedAt tp tl us
            (photos.map buildPhotoRow)).1, none) from by
        rw [← hpr]] at hs
      simp at hs
    | some runId =>
      rw [show persistRun db username collectedAt tp tl us
          (photos.map buildPhotoRow) =
          ((persistRun db username collectedAt tp tl us
            (photos.map buildPhotoRow)).1, some runId) from by
        rw [← hpr]] at hs
      simp at hs
      rw [← hs]
      simp

/-- C2 witness: with one statistics-less photo, strict mode aborts leaving
the store untouched; lenient mode yields one error, one row, and a summary
counting the photo as both seen and saved. -/
theorem missing_stats_strict_vs_lenient_witness :
    (∃ e, collectSnapshotModel emptyDB true "u" "t0" none none
        ⟨⟨none, none⟩, ⟨none, none⟩, ⟨none, none⟩⟩
        [⟨"p2", none, none, none, none, none, none⟩] =
      (emptyDB, .error e)) ∧
    collectPhotoRows false "u"
        [⟨"p2", none, none, none, none, none, none⟩] 0 0 [] =
      .ok (([⟨"p2", none, none, none, none, none, none⟩] :
          List Photo).length,
        (([⟨"p2", none, none, none, none, none, none⟩] :
          List Photo).filter fun p => p.statistics.isNone).length,
        ([⟨"p2", none, none, none, none, none, none⟩] :
          List Photo).map buildPhotoRow) ∧
    ((⟨1, 1, 1, 1⟩ : RunSummary).photosSeen =
        ([⟨"p2", none, none, none, none, none, none⟩] :
          List Photo).length ∧
      (⟨1, 1, 1, 1⟩ : RunSummary).photosSaved =
        ([⟨"p2", none, none, none, none, none, none⟩] :
          List Photo).length ∧
      (⟨1, 1, 1, 1⟩ : RunSummary).photoErrors =
        (([⟨"p2", none, none, none, none, none, none⟩] :
          List Photo).filter fun p => p.statistics.isNone).length) :=
  ⟨missing_stats_strict_vs_lenient.1 emptyDB "u" "t0" none none
      ⟨⟨none, none⟩, ⟨none, none⟩, ⟨none, none⟩⟩
      [⟨"p2", none, none, none, none, none, none⟩]
      ⟨"p2", none, none, none, none, none, none⟩ (by decide) rfl,
    missing_stats_strict_vs_lenient.2.1 "u"
      [⟨"p2", none, none, none, none, none, none⟩],
    missing_stats_strict_vs_lenient.2.2 emptyDB "u" "t0" none none
      ⟨⟨none, none⟩, ⟨none, none⟩, ⟨none, none⟩⟩
      [⟨"p2", none, none, none, none, none, none⟩] ⟨1, 1, 1, 1⟩ rfl⟩

/-- Helper: a successful user-snapshot insert only appends the row. -/
theorem insertUserSnapshot_ok_shape (db : DB) (r : UserSnapshotRow)
    (db' : DB) (h : insertUserSnapshot db r = .ok db') :
    db' = { db with userSnapshots := db.userSnapshots ++ [r] } := by
  unfold insertUserSnapshot at h
  split_ifs at h with h1 h2
  injection h with h
  rw [← h]

/-- Helper: a successful photo-row batch insert keeps the run and user
tables and appends exactly the batch, in order, to the photo table. -/
theorem insertPhotoSnapshotRows_ok_shape (rows : List PhotoRow) :
    ∀ (db db' : DB) (runId : ℕ),
      insertPhotoSnapshotRows db runId rows = .ok db' →
      db'.runs = db.runs ∧ db'.userSnapshots = db.userSnapshots ∧
      db'.nextRunId = db.nextRunId ∧
      db'.photoSnapshots.map (fun r => r.row) =
        db.photoSnapshots.map (fun r => r.row) ++ rows := by
  induction rows with
  | nil =>
    intro db db' runId h
    cases h
    simp
  | cons r rest ih =>
    intro db db' runId h
    unfold insertPhotoSnapshotRows at h
    cases h1 : insertPhotoSnapshotRow db runId r with
    | error e => rw [h1] at h; cases h
    | ok db1 =>
      rw [h1] at h
      obtain ⟨hr, hu, hn, hp⟩ := ih db1 db' runId h
      unfold insertPhotoSnapshotRow at h1
      split_ifs at h1 with hdup hfk
      injection h1 with h1
      rw [← h1] at hr hu hn hp
      refine ⟨hr, hu, hn, ?_⟩
      rw [hp]
      simp

/-- C1: persisting a completed run is all-or-nothing. If the transaction
body fails at any insert, the visible store afterwards is exactly the
pre-transaction store (no run header, user row, or photo row of the run
remains); on success the store gains the run header, then the single user
snapshot row, then every photo row of the batch, in order. -/
theorem persistRun_all_or_nothing :
    (∀ (db : DB) (username collectedAt : String) (tp tl : Option ℤ)
      (us : StatsTriple) (rows : List PhotoRow),
      (persistRun db username collectedAt tp tl us rows).2 = none →
      (persistRun db username collectedAt tp tl us rows).1 = db) ∧
    (∀ (db : DB) (username collectedAt : String) (tp tl : Option ℤ)
      (us : StatsTriple) (rows : List PhotoRow) (db' : DB) (runId : ℕ),
      persistRun db username collectedAt tp tl us rows = (db', some runId) →
      runId = db.nextRunId ∧
      db'.runs = db.runs ++ [⟨runId, username, collectedAt⟩] ∧
      db'.userSnapshots = db.userSnapshots ++
        [buildUserSnapshotRow runId username tp tl us] ∧
      db'.photoSnapshots.map (fun r => r.row) =
        db.photoSnapshots.map (fun r => r.row) ++ rows) := by
  constructor
  · intro db username collectedAt tp tl us rows hnone
    unfold persistRun at hnone ⊢
    cases hb : runInsertsBody db username collectedAt tp tl us rows with
    | ok q =>
      obtain ⟨db3, rid⟩ := q
      rw [hb] at hnone
      simp at hnone
    | error e => rfl
  · intro db username collectedAt tp tl us rows db' runId heq
    unfold persistRun at heq
    cases hb : runInsertsBody db username collectedAt tp tl us rows with
    | error e =>
      rw [hb] at heq
      simp at heq
    | ok q =>
      obtain ⟨db3, rid⟩ := q
      rw [hb] at heq
      simp only [Prod.mk.injEq] at heq
      obtain ⟨hdb, hridsome⟩ := heq
      have hrid : rid = runId := by
        injection hridsome
      unfold runInsertsBody at hb
      cases hu : insertUserSnapshot (insertCollectionRun db username
          collectedAt).1
          (buildUserSnapshotRow (insertCollectionRun db username
            collectedAt).2 username tp tl us) with
      | error e =>
        rw [hu] at hb
        simp at hb
      | ok db2 =>
        rw [hu] at hb
        have hb2 : (match insertPhotoSnapshotRows db2
            (insertCollectionRun db username collectedAt).2 rows with
          | Except.error e => (Except.error e : Except String (DB × ℕ))
          | Except.ok db3 => Except.ok (db3,
              (insertCollectionRun db username collectedAt).2)) =
            Except.ok (db3, rid) := hb
        clear hb
        cases hrows : insertPhotoSnapshotRows db2
            (insertCollectionRun db username collectedAt).2 rows with
        | error e =>
          rw [hrows] at hb2
          simp at hb2
        | ok db4 =>
          rw [hrows] at hb2
          simp only [Except.ok.injEq, Prod.mk.injEq] at hb2
          obtain ⟨h4, hridrun⟩ := hb2
          have hshape2 := insertUserSnapshot_ok_shape _ _ _ hu
          obtain ⟨hr4, hu4, hn4, hp4⟩ :=
            insertPhotoSnapshotRows_ok_shape rows _ _ _ hrows
          subst hdb
          subst hrid
          subst h4
          subst hshape2
          refine ⟨?_, ?_, ?_, ?_⟩
          · rw [← hridrun]; rfl
          · rw [hr4, ← hridrun]; rfl
          · rw [hu4, ← hridrun]; rfl
          · rw [hp4]; rfl

/-- C1 witness: a batch whose two rows share a photo id violates
`UNIQUE(run_id, photo_id)`, the transaction rolls back and the store is
exactly the initial one; the same run with a single row commits and appends
the header, user row, and photo row. -/
theorem persistRun_all_or_nothing_witness :
    (persistRun emptyDB "u" "t" none none ⟨⟨none, none⟩, ⟨none, none⟩,
        ⟨none, none⟩⟩
      [⟨"p", none, none, none, none, none, none, none, none, none, none⟩,
        ⟨"p", none, none, none, none, none, none, none, none, none,
          none⟩]).1 = emptyDB ∧
    ((1 : ℕ) = emptyDB.nextRunId ∧
      (⟨2, 2, [⟨1, "u", "t"⟩],
        [buildUserSnapshotRow 1 "u" none none
          ⟨⟨none, none⟩, ⟨none, none⟩, ⟨none, none⟩⟩],
        [⟨1, 1, ⟨"p", none, none, none, none, none, none, none, none, none,
          none⟩⟩]⟩ : DB).runs = emptyDB.runs ++ [⟨1, "u", "t"⟩] ∧
      (⟨2, 2, [⟨1, "u", "t"⟩],
        [buildUserSnapshotRow 1 "u" none none
          ⟨⟨none, none⟩, ⟨none, none⟩, ⟨none, none⟩⟩],
        [⟨1, 1, ⟨"p", none, none, none, none, none, none, none, none, none,
          none⟩⟩]⟩ : DB).userSnapshots = emptyDB.userSnapshots ++
        [buildUserSnapshotRow 1 "u" none none
          ⟨⟨none, none⟩, ⟨none, none⟩, ⟨none, none⟩⟩] ∧
      ((⟨2, 2, [⟨1, "u", "t"⟩],
        [buildUserSnapshotRow 1 "u" none none
          ⟨⟨none, none⟩, ⟨none, none⟩, ⟨none, none⟩⟩],
        [⟨1, 1, ⟨"p", none, none, none, none, none, none, none, none, none,
          none⟩⟩]⟩ : DB).photoSnapshots.map (fun r => r.row)) =
        emptyDB.photoSnapshots.map (fun r => r.row) ++
          [⟨"p", none, none, none, none, none, none, none, none, none,
            none⟩]) :=
  ⟨persistRun_all_or_nothing.1 emptyDB "u" "t" none none
      ⟨⟨none, none⟩, ⟨none, none⟩, ⟨none, none⟩⟩
      [⟨"p", none, none, none, none, none, none, none, none, none, none⟩,
        ⟨"p", none, none, none, none, none, none, none, none, none, none⟩]
      rfl,
    persistRun_all_or_nothing.2 emptyDB "u" "t" none none
      ⟨⟨none, none⟩, ⟨none, none⟩, ⟨none, none⟩⟩
      [⟨"p", none, none, none, none, none, none, none, none, none, none⟩]
      _ 1 rfl⟩

/-- C8 counterexample: a photo appearing in exactly one run whose
`downloads_total` is NULL (as the collector stores for a missing-statistics
photo) gets a NULL downloads delta from the view, not 0 — `NULL -
COALESCE(NULL, NULL)` is NULL — refuting "for every photo appearing in
exactly one run both deltas are 0 (not null)". Its views delta, whose total
is non-null, is 0 as claimed. -/
theorem photoLatest_single_run_null_total_null_delta :
    photoLatestEntry
        ⟨2, 2, [⟨1, "u", "2024-01-01T00:00:00+00:00"⟩], [],
          [⟨1, 1, ⟨"p", none, none, none, none, none, some 5, none, none,
            none, none⟩⟩]⟩ "p" =
      some ⟨"p", none, some 5, "2024-01-01T00:00:00+00:00", none, none,
        some 0⟩ ∧
    (photoRowsFor
        ⟨2, 2, [⟨1, "u", "2024-01-01T00:00:00+00:00"⟩], [],
          [⟨1, 1, ⟨"p", none, none, none, none, none, some 5, none, none,
            none, none⟩⟩]⟩ "p").length = 1 := by
  constructor <;> rfl

/-- C8 (amended): each delta of the latest-vs-previous view is
`latest - COALESCE(previous, latest)` under SQL NULL semantics: a photo
appearing in exactly one run shows delta 0 for a metric whose latest total
is non-null and NULL for a metric whose latest total is NULL; a photo with
non-null totals in its two most recent runs shows exactly the difference of
the two totals. -/
theorem photoLatest_deltas :
    (∀ (db : DB) (pid : String) (r : JoinedRow),
      photoRowsFor db pid = [r] →
      photoLatestEntry db pid =
        some ⟨pid, r.downloadsTotal, r.viewsTotal, r.collectedAt, none,
          r.downloadsTotal.map (fun _ => 0),
          r.viewsTotal.map (fun _ => 0)⟩) ∧
    (∀ (db : DB) (pid : String) (l p : JoinedRow) (a b c d : ℤ),
      latestOf (photoRowsFor db pid) = some l →
      previousOf (photoRowsFor db pid) = some p →
      l.downloadsTotal = some a → p.downloadsTotal = some b →
      l.viewsTotal = some c → p.viewsTotal = some d →
      photoLatestEntry db pid =
        some ⟨pid, l.downloadsTotal, l.viewsTotal, l.collectedAt,
          some p.collectedAt, some (a - b), some (c - d)⟩) := by
  constructor
  · intro db pid r hrows
    cases hd : r.downloadsTotal <;> cases hv : r.viewsTotal <;>
      simp [photoLatestEntry, previousOf, hrows, latestOf, sqlSub,
        sqlCoalesce, hd, hv]
  · intro db pid l p a b c d hl hp ha hb hc hd
    unfold photoLatestEntry
    rw [hl]
    simp [hp, sqlSub, sqlCoalesce, ha, hb, hc, hd]

/-- C8 witness: a photo with downloads 100 → 140 and views 7 → 9 across two
runs shows deltas +40 and +2; a photo in a single run with non-null totals
shows deltas 0. -/
theorem photoLatest_deltas_witness :
    photoLatestEntry
        ⟨3, 3, [⟨1, "u", "2024-01-01T00:00:00+00:00"⟩,
            ⟨2, "u", "2024-01-02T00:00:00+00:00"⟩], [],
          [⟨1, 1, ⟨"p", none, none, none, none, some 100, some 7, none,
              none, none, none⟩⟩,
            ⟨2, 2, ⟨"p", none, none, none, none, some 140, some 9, none,
              none, none, none⟩⟩]⟩ "p" =
      some ⟨"p", some 140, some 9, "2024-01-02T00:00:00+00:00",
        some "2024-01-01T00:00:00+00:00", some (140 - 100), some (9 - 7)⟩ ∧
    photoLatestEntry
        ⟨2, 2, [⟨1, "u", "2024-01-01T00:00:00+00:00"⟩], [],
          [⟨1, 1, ⟨"q", none, none, none, none, some 11, some 3, none, none,
            none, none⟩⟩]⟩ "q" =
      some ⟨"q", some 11, some 3, "2024-01-01T00:00:00+00:00", none,
        Option.map (fun _ => 0) (some 11), Option.map (fun _ => 0)
          (some 3)⟩ :=
  ⟨photoLatest_deltas.2
      ⟨3, 3, [⟨1, "u", "2024-01-01T00:00:00+00:00"⟩,
          ⟨2, "u", "2024-01-02T00:00:00+00:00"⟩], [],
        [⟨1, 1, ⟨"p", none, none, none, none, some 100, some 7, none, none,
            none, none⟩⟩,
          ⟨2, 2, ⟨"p", none, none, none, none, some 140, some 9, none, none,
            none, none⟩⟩]⟩ "p"
      ⟨2, "p", some 140, some 9, "2024-01-02T00:00:00+00:00"⟩
      ⟨1, "p", some 100, some 7, "2024-01-01T00:00:00+00:00"⟩
      140 100 9 7 (by decide) (by decide) rfl rfl rfl rfl,
    photoLatest_deltas.1
      ⟨2, 2, [⟨1, "u", "2024-01-01T00:00:00+00:00"⟩], [],
        [⟨1, 1, ⟨"q", none, none, none, none, some 11, some 3, none, none,
          none, none⟩⟩]⟩ "q"
      ⟨1, "q", some 11, some 3, "2024-01-01T00:00:00+00:00"⟩ (by decide)⟩

end UnsplashStats
